import Mathlib

/-!
Verification development for the MeteoForecast client
(src/meteo_forecast/meteo_forecast.py).

The Python code is shallowly embedded here:

* `datetime` values at hour resolution are represented by a civil
  structure `DateTimeH` (year, month, day, hour) together with a linear
  hour count (`toHoursD`); calendar conversion follows the proleptic
  Gregorian calendar used by `datetime`.
* `strptime(s, "%Y-%m-%dT%H")` is `parseTs`, `strftime("%Y-%m-%dT%H")`
  is `formatTs`.  (`formatTs` pads the year to four digits; catalog
  years are four digits, so this matches CPython output.)
* The network is an oracle: `Env` carries one function per remote
  endpoint, each returning `Except MErr` so transport failures and
  malformed responses are representable.  The current UTC time is a
  parameter `nowSec`, a count of seconds; sub-second parts are
  irrelevant at the hour granularity used by the code.
* Python `raise`/`except` becomes `Except MErr`; the per-field
  `try ... except` of `get_forecast` becomes the total function
  `loopFields` that converts an error into a `Warning`.
* The dynamically typed config dict is `PyConfig`, an association list
  over a universe `PyVal` of Python values (`isinstance(x, int)` holds
  for `bool`, as in Python).
* Latitude and longitude are only forwarded to the coordinate-resolver
  oracle, never computed with, so they are represented by `Coord := Int`.
-/

namespace MeteoForecast

/-! ### Proleptic Gregorian calendar (the arithmetic behind `datetime`) -/

def isLeap (y : Int) : Bool :=
  y % 4 == 0 && (y % 100 != 0 || y % 400 == 0)

def daysInMonth (y : Int) (m : Nat) : Nat :=
  if m == 2 then (if isLeap y then 29 else 28)
  else if m == 4 || m == 6 || m == 9 || m == 11 then 30
  else 31

/-- Days since 1970-01-01 of the civil date (y, m, d), proleptic Gregorian. -/
def daysFromCivil (y : Int) (m d : Nat) : Int :=
  let yAdj : Int := if m ≤ 2 then y - 1 else y
  let era : Int := yAdj.fdiv 400
  let yoe : Nat := (yAdj - era * 400).toNat
  let mp : Nat := if m > 2 then m - 3 else m + 9
  let doy : Nat := (153 * mp + 2) / 5 + d - 1
  let doe : Nat := yoe * 365 + yoe / 4 - yoe / 100 + doy
  era * 146097 + (doe : Int) - 719468

/-- Civil date (y, m, d) of a count of days since 1970-01-01. -/
def civilFromDays (z : Int) : Int × Nat × Nat :=
  let z : Int := z + 719468
  let era : Int := z.fdiv 146097
  let doe : Nat := (z - era * 146097).toNat
  let yoe : Nat := (doe - doe / 1460 + doe / 36524 - doe / 146096) / 365
  let doy : Nat := doe - (365 * yoe + yoe / 4 - yoe / 100)
  let mp : Nat := (5 * doy + 2) / 153
  let d : Nat := doy - (153 * mp + 2) / 5 + 1
  let m : Nat := if mp < 10 then mp + 3 else mp - 9
  let y : Int := (yoe : Int) + era * 400 + (if m ≤ 2 then 1 else 0)
  (y, m, d)

/-- A `datetime` at hour resolution (the only resolution the client uses). -/
structure DateTimeH where
  year : Int
  month : Nat
  day : Nat
  hour : Nat
  deriving Repr, DecidableEq

/-- Hours since 1970-01-01T00 of a `DateTimeH`.  Orders datetimes the way
`datetime` comparison does. -/
def toHoursD (dt : DateTimeH) : Int :=
  daysFromCivil dt.year dt.month dt.day * 24 + dt.hour

/-- The `DateTimeH` of a count of hours since 1970-01-01T00. -/
def ofHoursD (h : Int) : DateTimeH :=
  let d : Int := h.fdiv 24
  let c := civilFromDays d
  ⟨c.1, c.2.1, c.2.2, (h - d * 24).toNat⟩

/-! ### `strptime` / `strftime` with pattern "%Y-%m-%dT%H" -/

def digitsToNat : List Char → Nat → Option Nat
  | [], acc => some acc
  | c :: cs, acc =>
    if c.isDigit then digitsToNat cs (acc * 10 + (c.toNat - 48)) else none

/-- Split a character list at every occurrence of `c` (the behavior of
`String.splitOn` for a one-character separator). -/
def splitOnChar (c : Char) : List Char → List (List Char)
  | [] => [[]]
  | x :: xs =>
    let r := splitOnChar c xs
    if x == c then [] :: r
    else
      match r with
      | [] => [[x]]
      | h :: t => (x :: h) :: t

/-- Parse a decimal numeral of between 1 and `maxLen` digits, as the
`strptime` directives %Y (1-4 digits) and %m/%d/%H (1-2 digits) do. -/
def parseNum (maxLen : Nat) (cs : List Char) : Option Nat :=
  if cs.length == 0 || cs.length > maxLen then none else digitsToNat cs 0

/-- `datetime.strptime(s, "%Y-%m-%dT%H")`: split on "-" and "T", read the
numerals, and validate ranges exactly as the `datetime` constructor does. -/
def parseTs (s : String) : Option DateTimeH :=
  match splitOnChar 'T' s.toList with
  | [datePart, hourPart] =>
    match splitOnChar '-' datePart with
    | [ys, ms, ds] =>
      match parseNum 4 ys, parseNum 2 ms, parseNum 2 ds, parseNum 2 hourPart with
      | some y, some m, some d, some h =>
        if 1 ≤ m && m ≤ 12 && 1 ≤ d && d ≤ daysInMonth (y : Int) m && h ≤ 23 then
          some ⟨(y : Int), m, d, h⟩
        else none
      | _, _, _, _ => none
    | _ => none
  | _ => none

/-- Zero-pad the decimal numeral of `n` to width `w`. -/
def padNum (w : Nat) (n : Nat) : String :=
  let s := toString n
  let pad := w - s.length
  String.mk (List.replicate pad (Char.ofNat 48)) ++ s

/-- `strftime("%Y-%m-%dT%H")` (years of catalog data are in 1..9999). -/
def formatTs (dt : DateTimeH) : String :=
  padNum 4 dt.year.toNat ++ "-" ++ padNum 2 dt.month ++ "-" ++ padNum 2 dt.day
    ++ "T" ++ padNum 2 dt.hour

/-! ### Errors, warnings and the dynamically typed config -/

/-- The exception classes the client raises or meets: `ValueError`,
`TypeError`, `IndexError` (out-of-range subscript), `KeyError`. -/
inductive MErr where
  | valueError (msg : String)
  | typeError (msg : String)
  | indexError
  | keyError (key : String)
  deriving Repr, DecidableEq

/-- One `warnings.warn` call from the per-field loop of `get_forecast`;
the emitted message interpolates the field, the level and the caught
exception, recorded here as fields. -/
structure Warning where
  field : String
  level : Int
  err : MErr
  deriving Repr, DecidableEq

/-- Python values, as far as `_check_config` discriminates them.
`isinstance(x, int)` is true for `bool` in Python. -/
inductive PyVal where
  | str (s : String)
  | int (n : Int)
  | bool (b : Bool)
  | float
  | none
  | list (xs : List PyVal)
  | tuple (xs : List PyVal)
  deriving Repr

/-- A Python dict with string keys: insertion-ordered association list. -/
abbrev PyConfig := List (String × PyVal)

def isStrV : PyVal → Bool
  | .str _ => true
  | _ => false

def isListV : PyVal → Bool
  | .list _ => true
  | _ => false

/-- `isinstance(x, int)`: true for `int` and for `bool`. -/
def isIntV : PyVal → Bool
  | .int _ => true
  | .bool _ => true
  | _ => false

/-- `isinstance(field, tuple) and len(field) == 2 and isinstance(field[0], str)
and isinstance(field[1], int)`. -/
def fieldOk : PyVal → Bool
  | .tuple [a, b] => isStrV a && isIntV b
  | _ => false

def checkFields : List PyVal → Except MErr Unit
  | [] => .ok ()
  | v :: vs =>
    if fieldOk v then checkFields vs
    else .error (.valueError
      "Each field in \"fields\" must be a tuple of (field_name: str, level: int)")

/-- One step of the `for key, val_type in (...)` loop of `_check_config`:
missing key, then `isinstance` check. -/
def checkKey (config : PyConfig) (key : String) (tycheck : PyVal → Bool)
    (tyName : String) : Except MErr Unit :=
  match config.lookup key with
  | Option.none => .error (.valueError ("Configuration must have \"" ++ key ++ "\" key"))
  | Option.some v =>
    if tycheck v then .ok ()
    else .error (.valueError ("Configuration \"" ++ key ++ "\" must be of type " ++ tyName))

/-- `MeteoForecast._check_config`. -/
def check_config (config : PyConfig) : Except MErr Unit :=
  match checkKey config "model" isStrV "str" with
  | .error e => .error e
  | .ok _ =>
  match checkKey config "grid" isStrV "str" with
  | .error e => .error e
  | .ok _ =>
  match checkKey config "fields" isListV "list" with
  | .error e => .error e
  | .ok _ =>
  match config.lookup "fields" with
  | Option.some (.list xs) =>
    if xs.length == 0 then
      .error (.valueError
        "Fields cannot be empty. Please provide at least one field in the configuration.")
    else checkFields xs
  | _ => .error (.keyError "fields")

/-- `config["model"]` as a string; the default branch is unreachable once
`check_config` has succeeded. -/
def cfgModel (config : PyConfig) : String :=
  match config.lookup "model" with
  | Option.some (.str s) => s
  | _ => ""

/-- `config["grid"]` as a string; same proviso as `cfgModel`. -/
def cfgGrid (config : PyConfig) : String :=
  match config.lookup "grid" with
  | Option.some (.str s) => s
  | _ => ""

/-- The `(field[0], field[1])` pair of one element of `config["fields"]`;
defined exactly on the values `fieldOk` accepts. -/
def fieldPair : PyVal → Option (String × Int)
  | .tuple [.str s, .int n] => Option.some (s, n)
  | .tuple [.str s, .bool b] => Option.some (s, if b then 1 else 0)
  | _ => Option.none

/-- `config["fields"]` as (name, level) pairs; after `check_config`
succeeds `filterMap` drops nothing. -/
def cfgFields (config : PyConfig) : List (String × Int) :=
  match config.lookup "fields" with
  | Option.some (.list xs) => xs.filterMap fieldPair
  | _ => []

/-! ### Run descriptors and `_get_forecast_dates` -/

/-- One element of the `dates` array of the catalog response:
keys `starting-date`, `interval`, `count`. -/
structure RunDescriptor where
  startingDate : String
  interval : Int
  count : Int
  deriving Repr, DecidableEq

/-- `MeteoForecast._get_forecast_dates`: parse the starting date
(`strptime` raises `ValueError` on failure, modeled as `.error`), then
build `[(start + i * interval hours).strftime(...) for i in range(count)]`;
a non-positive count gives the empty list, as `range` does. -/
def getForecastDates (date : RunDescriptor) : Except MErr (List String) :=
  match parseTs date.startingDate with
  | Option.none => .error (.valueError ("time data \"" ++ date.startingDate
      ++ "\" does not match format \"%Y-%m-%dT%H\""))
  | Option.some start =>
    .ok ((List.range date.count.toNat).map
      (fun i => formatTs (ofHoursD (toHoursD start + i * date.interval))))

/-! ### Freshness selection (the loop over `dates[::-1]` in `get_forecast`) -/

/-- `datetime.now(pytz.UTC).replace(minute=0, second=0, microsecond=0)
- timedelta(hours=24)`, in hours: floor the current time to the hour and
subtract 24 hours.  `nowSec` is the current UTC time in seconds. -/
def cutoffOf (nowSec : Int) : Int :=
  nowSec.fdiv 3600 - 24

/-- `datetime.strptime(t, "%Y-%m-%dT%H").replace(tzinfo=pytz.UTC) >= cutoff`.
The strings tested come from `strftime`, so parsing always succeeds there;
an unparseable string tests false. -/
def freshTest (cutoff : Int) (t : String) : Bool :=
  match parseTs t with
  | Option.some dt => cutoff ≤ toHoursD dt
  | Option.none => false

/-- The scan over `dates[::-1]`, already reversed: expand each descriptor
(`_get_forecast_dates` may raise), walk its timestamps newest first, stop
at the first one `>= cutoff`. -/
def goSelect (cutoff : Int) : List RunDescriptor → Except MErr (Option String)
  | [] => .ok Option.none
  | d :: rest =>
    match getForecastDates d with
    | .error e => .error e
    | .ok fds =>
      match fds.reverse.find? (freshTest cutoff) with
      | Option.some t => .ok (Option.some t)
      | Option.none => goSelect cutoff rest

/-- The freshness-resolution block of `get_forecast` (the nested loops
computing `last_forecast_date`): returns `some t` for the selected
timestamp, `none` when no run qualifies. -/
def selectDate (dates : List RunDescriptor) (cutoff : Int) : Except MErr (Option String) :=
  goSelect cutoff dates.reverse

/-! ### Network oracles and `get_xy` -/

/-- Latitude and longitude are only interpolated into a URL and sent to the
service, never computed with; an integer stands in for the float. -/
abbrev Coord := Int

/-- One element of the `points` array of the `latlon2rowcol` response. -/
structure Point where
  col : Int
  row : Int
  deriving Repr, DecidableEq

/-- The `latlon2rowcol` endpoint: (model, grid, latitude, longitude) to the
`points` array, or a transport error. -/
abbrev Resolver := String → String → Coord → Coord → Except MErr (List Point)

/-- Values of the forecast time series; the client treats them as opaque
JSON numbers, an integer stands in. -/
abbrev Value := Int

/-- The remote service and the clock, as `get_forecast` observes them:
`datesOf x y field level` is the catalog endpoint, `forecastOf x y field
level date` the forecast endpoint, `nowSec` the current UTC time in
seconds. -/
structure Env where
  resolver : Resolver
  datesOf : Int → Int → String → Int → Except MErr (List RunDescriptor)
  forecastOf : Int → Int → String → Int → String →
    Except MErr (List String × List Value)
  nowSec : Int

/-- `MeteoForecast.get_xy`: take `response["points"]`, return
`(data[0]["col"], data[0]["row"])`; an empty list raises `IndexError`. -/
def get_xy (resolver : Resolver) (latitude longitude : Coord)
    (model grid : String) : Except MErr (Int × Int) :=
  match resolver model grid latitude longitude with
  | .error e => .error e
  | .ok [] => .error .indexError
  | .ok (p :: _) => .ok (p.col, p.row)

/-! ### The nested result dict and its update -/

/-- Update an insertion-ordered dict at `k` through `f` (receiving the
current value if any), appending when absent — Python dict assignment. -/
def updA {κ ν : Type} [DecidableEq κ] (k : κ) (f : Option ν → ν) :
    List (κ × ν) → List (κ × ν)
  | [] => [(k, f Option.none)]
  | (k2, v) :: rest =>
    if k2 = k then (k2, f (Option.some v)) :: rest else (k2, v) :: updA k f rest

abbrev LevelMap := List (Int × Value)
abbrev FieldMap := List (String × LevelMap)

/-- The nested dict `forecasts[time][field][level]`. -/
abbrev ForecastResult := List (String × FieldMap)

/-- `forecasts[time] = forecasts.get(time, dict-created-if-absent)` then
`forecasts[time][field]` likewise, then `forecasts[time][field][level] = v`. -/
def setAt (r : ForecastResult) (t f : String) (l : Int) (v : Value) : ForecastResult :=
  updA t (fun fm => updA f (fun lm => updA l (fun _ => v) (lm.getD []))
    (fm.getD [])) r

/-- Read back `forecasts[time][field][level]`. -/
def getAt (r : ForecastResult) (t f : String) (l : Int) : Option Value :=
  (r.lookup t).bind (fun fm => (fm.lookup f).bind (fun lm => lm.lookup l))

/-- The merge loop `for time, data in zip(...)`: write each pair. -/
def mergeField (r : ForecastResult) (f : String) (l : Int)
    (pairs : List (String × Value)) : ForecastResult :=
  pairs.foldl (fun acc p => setAt acc p.1 f l p.2) r

/-! ### `get_forecast` -/

/-- The body of the per-field `try`: fetch the catalog, resolve a fresh
date (raising `ValueError` when none qualifies), fetch the forecast, and
zip `times` with `data`.  Any `.error` is what the `except` catches. -/
def fieldOutcome (env : Env) (x y : Int) (field : String × Int) :
    Except MErr (List (String × Value)) :=
  match env.datesOf x y field.1 field.2 with
  | .error e => .error e
  | .ok dates =>
    match selectDate dates (cutoffOf env.nowSec) with
    | .error e => .error e
    | .ok Option.none => .error (.valueError ("No valid forecast date found for field "
        ++ field.1 ++ " at level " ++ toString field.2))
    | .ok (Option.some d) =>
      match env.forecastOf x y field.1 field.2 d with
      | .error e => .error e
      | .ok fd => .ok (fd.1.zip fd.2)

/-- `for field in config["fields"]`: merge on success; on exception warn
(`Failed to fetch data for field ... at level ...`) and continue. -/
def loopFields (env : Env) (x y : Int) :
    List (String × Int) → ForecastResult → ForecastResult × List Warning
  | [], r => (r, [])
  | f :: fs, r =>
    match fieldOutcome env x y f with
    | .ok pairs => loopFields env x y fs (mergeField r f.1 f.2 pairs)
    | .error e =>
      let rest := loopFields env x y fs r
      (rest.1, ⟨f.1, f.2, e⟩ :: rest.2)

/-- The mutable attributes of a `MeteoForecast` instance (`api_key`,
`lat`, `lon`, `config`, `x`, `y`; `main_url` is derived from `config`). -/
structure MState where
  apiKey : String
  lat : Option Coord
  lon : Option Coord
  config : PyConfig
  x : Option Int
  y : Option Int

/-- The tail of `get_forecast` after `x, y` are determined: the
`if x is None or y is None: raise ValueError(...)` check, then the
per-field loop over `config["fields"]` starting from an empty dict. -/
def finishForecast (env : Env) (s : MState) (config : PyConfig) :
    Option Int → Option Int →
    Except MErr (ForecastResult × List Warning × MState)
  | Option.some x, Option.some y =>
    .ok ((loopFields env x y (cfgFields config) []).1,
      (loopFields env x y (cfgFields config) []).2, s)
  | _, _ => .error (.valueError ("Coordinates must be set before fetching the forecast. "
      ++ "Set latitude and longitude in constructor or in get_forecast call."))

/-- The coordinate step of `get_forecast`: when both per-call overrides
are present, resolve a fresh grid cell through `get_xy` (whose failure
propagates); otherwise take the cached `self.x`, `self.y`. -/
def resolveXY (env : Env) (s : MState) (config : PyConfig) :
    Option Coord → Option Coord → Except MErr (Option Int × Option Int)
  | Option.some la, Option.some lo =>
    match get_xy env.resolver la lo (cfgModel config) (cfgGrid config) with
    | .error e => .error e
    | .ok p => .ok (Option.some p.1, Option.some p.2)
  | _, _ => .ok (s.x, s.y)

/-- `MeteoForecast.get_forecast(latitude, longitude, config)`: take the
override config or the stored one, validate it, determine `x, y`
(`resolveXY`), then check them and run the per-field loop
(`finishForecast`).  Returns the result dict, the warnings emitted, and
the instance state after the call; the method body never assigns to
`self`, so that state is the input state. -/
def get_forecast (env : Env) (s : MState) (latitude longitude : Option Coord)
    (configArg : Option PyConfig) :
    Except MErr (ForecastResult × List Warning × MState) :=
  match check_config (configArg.getD s.config) with
  | .error e => .error e
  | .ok _ =>
    match resolveXY env s (configArg.getD s.config) latitude longitude with
    | .error e => .error e
    | .ok xy => finishForecast env s (configArg.getD s.config) xy.1 xy.2

/-! ### The constructor -/

/-- The module-level `default_config`. -/
def default_config : PyConfig :=
  [("model", .str "wrf"),
   ("grid", .str "d02_XLONG_XLAT"),
   ("fields", .list [
     .tuple [.str "TSK", .int 0],
     .tuple [.str "T2", .int 0],
     .tuple [.str "RAINNC", .int 0],
     .tuple [.str "SNOWNC", .int 0],
     .tuple [.str "HAILNC", .int 0],
     .tuple [.str "U10", .int 0],
     .tuple [.str "V10", .int 0],
     .tuple [.str "WSPD10MAX", .int 0],
     .tuple [.str "SWDOWN", .int 0],
     .tuple [.str "PSFC", .int 0]])]

/-- `MeteoForecast.__init__`: store coordinates only when both are given,
validate the config (default when absent), leave `x`, `y` unset, then
resolve the grid cell via `_set_xy` when coordinates are stored. -/
def mkMeteoForecast (resolver : Resolver) (apiKey : String)
    (latitude longitude : Option Coord) (configArg : Option PyConfig) :
    Except MErr MState :=
  let latlon : Option Coord × Option Coord :=
    match latitude, longitude with
    | Option.some la, Option.some lo => (Option.some la, Option.some lo)
    | _, _ => (Option.none, Option.none)
  let config := configArg.getD default_config
  match check_config config with
  | .error e => .error e
  | .ok _ =>
    match latlon with
    | (Option.some la, Option.some lo) =>
      match get_xy resolver la lo (cfgModel config) (cfgGrid config) with
      | .error e => .error e
      | .ok p => .ok ⟨apiKey, Option.some la, Option.some lo, config,
          Option.some p.1, Option.some p.2⟩
    | _ => .ok ⟨apiKey, Option.none, Option.none, config, Option.none, Option.none⟩

/-! ### Spec-side definitions for refinement statements -/

/-- Spec reading of run expansion: the sequence
`starting_date + i * interval_hours` for `i` in `[0, count)`, formatted;
empty when the starting date does not parse. -/
def specExpand (d : RunDescriptor) : List String :=
  match parseTs d.startingDate with
  | Option.some start =>
    (List.range d.count.toNat).map
      (fun i => formatTs (ofHoursD (toHoursD start + i * d.interval)))
  | Option.none => []

/-- Spec reading of the well-formedness `_check_config` actually enforces:
`model` and `grid` present and strings (emptiness is not inspected),
`fields` present, a list, non-empty, every element a (str, int) 2-tuple. -/
def wellFormedConfig (c : PyConfig) : Prop :=
  (∃ s, c.lookup "model" = Option.some (.str s))
  ∧ (∃ s, c.lookup "grid" = Option.some (.str s))
  ∧ (∃ xs, c.lookup "fields" = Option.some (.list xs) ∧ xs ≠ []
      ∧ ∀ v ∈ xs, fieldOk v = true)

/-! ### Helper lemmas -/

theorem getForecastDates_eq_specExpand (d : RunDescriptor)
    (h : (parseTs d.startingDate).isSome) :
    getForecastDates d = .ok (specExpand d) := by
  rcases Option.isSome_iff_exists.mp h with ⟨dt, hdt⟩
  simp [getForecastDates, specExpand, hdt]

theorem goSelect_eq_find (cutoff : Int) (l : List RunDescriptor)
    (h : ∀ d ∈ l, (parseTs d.startingDate).isSome) :
    goSelect cutoff l =
      .ok ((l.flatMap (fun d => (specExpand d).reverse)).find? (freshTest cutoff)) := by
  induction l with
  | nil => simp [goSelect]
  | cons d rest ih =>
    have hd : (parseTs d.startingDate).isSome := h d (List.mem_cons_self d rest)
    have hrest : ∀ x ∈ rest, (parseTs x.startingDate).isSome :=
      fun x hx => h x (List.mem_cons_of_mem d hx)
    simp only [goSelect, getForecastDates_eq_specExpand d hd, List.flatMap_cons,
      List.find?_append]
    cases hfind : (specExpand d).reverse.find? (freshTest cutoff) with
    | none => simp [ih hrest, Option.or]
    | some t => simp [Option.or]

theorem checkFields_ok_iff (xs : List PyVal) :
    checkFields xs = .ok () ↔ ∀ v ∈ xs, fieldOk v = true := by
  induction xs with
  | nil => simp [checkFields]
  | cons v vs ih =>
    by_cases hv : fieldOk v = true
    · simp [checkFields, hv, ih]
    · simp [checkFields, hv]

theorem lookup_updA {κ ν : Type} [DecidableEq κ] (k : κ) (f : Option ν → ν)
    (l : List (κ × ν)) : (updA k f l).lookup k = Option.some (f (l.lookup k)) := by
  induction l with
  | nil => simp [updA, List.lookup]
  | cons p rest ih =>
    by_cases hk : p.1 = k
    · simp [updA, hk, List.lookup]
    · simp only [updA]
      rw [if_neg (by exact hk)]
      have hbeq : (k == p.1) = false := by
        simp [BEq.beq]
        exact fun he => hk he.symm
      simp [List.lookup, hbeq, ih]

theorem getAt_setAt (r : ForecastResult) (t f : String) (l : Int) (v : Value) :
    getAt (setAt r t f l v) t f l = Option.some v := by
  simp [getAt, setAt, lookup_updA]

/-! ### Claim theorems -/

/-- C6: coordinate resolution takes the first candidate point, giving
(col, row); the point `(col 150, row 250)` yields `(150, 250)`; an empty
points list raises `IndexError`, and an error of `get_xy` propagates
unchanged out of `get_forecast` when per-call coordinates are supplied. -/
theorem coordinate_resolution_first_point :
    (∀ (resolver : Resolver) (la lo : Coord) (m g : String) (p : Point) (ps : List Point),
      resolver m g la lo = .ok (p :: ps) →
      get_xy resolver la lo m g = .ok (p.col, p.row))
    ∧ get_xy (fun _ _ _ _ => .ok [⟨150, 250⟩]) 52 21 "wrf" "d02_XLONG_XLAT"
        = .ok (150, 250)
    ∧ (∀ (resolver : Resolver) (la lo : Coord) (m g : String),
      resolver m g la lo = .ok [] → get_xy resolver la lo m g = .error .indexError)
    ∧ get_xy (fun _ _ _ _ => .ok []) 52 21 "wrf" "d02_XLONG_XLAT" = .error .indexError
    ∧ (∀ (env : Env) (st : MState) (la lo : Coord) (c : PyConfig) (e : MErr),
      check_config c = .ok () →
      get_xy env.resolver la lo (cfgModel c) (cfgGrid c) = .error e →
      get_forecast env st (Option.some la) (Option.some lo) (Option.some c) = .error e) := by
  refine ⟨?_, rfl, ?_, rfl, ?_⟩
  · intro resolver la lo m g p ps hres
    simp [get_xy, hres]
  · intro resolver la lo m g hres
    simp [get_xy, hres]
  · intro env st la lo c e hc hxy
    simp [get_forecast, resolveXY, hc, hxy]

/-- Witness for `coordinate_resolution_first_point`: the general clauses
applied to the concrete one-point and zero-point resolvers. -/
theorem coordinate_resolution_first_point_witness :
    get_xy (fun _ _ _ _ => .ok [⟨150, 250⟩]) 52 21 "wrf" "d02_XLONG_XLAT"
      = .ok (Point.col ⟨150, 250⟩, Point.row ⟨150, 250⟩)
    ∧ get_xy (fun _ _ _ _ => .ok []) 52 21 "wrf" "d02_XLONG_XLAT" = .error .indexError :=
  ⟨coordinate_resolution_first_point.1 (fun _ _ _ _ => .ok [⟨150, 250⟩])
      52 21 "wrf" "d02_XLONG_XLAT" ⟨150, 250⟩ [] rfl,
    coordinate_resolution_first_point.2.2.1 (fun _ _ _ _ => .ok [])
      52 21 "wrf" "d02_XLONG_XLAT" rfl⟩

/-- C7: expanding a run descriptor with a parseable starting date yields
exactly the `count` timestamps `start + i * interval` hours, formatted
"%Y-%m-%dT%H", in increasing index order; in particular count 3,
interval 6, start "2024-01-01T00" yields the three listed timestamps. -/
theorem run_expansion (s : String) (h n : Int) (dt : DateTimeH)
    (hp : parseTs s = Option.some dt) :
    getForecastDates ⟨s, h, n⟩ =
      .ok ((List.range n.toNat).map
        (fun i => formatTs (ofHoursD (toHoursD dt + i * h))))
    ∧ getForecastDates ⟨"2024-01-01T00", 6, 3⟩ =
      .ok ["2024-01-01T00", "2024-01-01T06", "2024-01-01T12"] := by
  constructor
  · simp [getForecastDates, hp]
  · rfl

/-- Witness for `run_expansion` at the concrete run of the claim. -/
theorem run_expansion_witness :
    parseTs "2024-01-01T00" = Option.some ⟨2024, 1, 1, 0⟩
    ∧ getForecastDates ⟨"2024-01-01T00", 6, 3⟩ =
      .ok ((List.range (Int.toNat 3)).map
        (fun i => formatTs (ofHoursD (toHoursD ⟨2024, 1, 1, 0⟩ + i * 6)))) :=
  ⟨rfl, (run_expansion "2024-01-01T00" 6 3 ⟨2024, 1, 1, 0⟩ rfl).1⟩

/-- C1: freshness resolution scans declared runs in reverse and each
expanded run newest-sample-first, selecting the first timestamp `>= cutoff`
(the `find?` over that scan order); concretely, with an earlier-declared
run holding the strictly greater qualifying timestamp "2024-01-10T04" and
a later-declared run whose newest qualifying sample is "2024-01-09T14",
the later-declared run wins — the result is not the global maximum. -/
theorem freshness_reverse_scan :
    (∀ (dates : List RunDescriptor) (cutoff : Int),
      (∀ d ∈ dates, (parseTs d.startingDate).isSome) →
      selectDate dates cutoff =
        .ok ((dates.reverse.flatMap (fun d => (specExpand d).reverse)).find?
          (freshTest cutoff)))
    ∧ selectDate [⟨"2024-01-10T00", 1, 5⟩, ⟨"2024-01-09T12", 1, 3⟩]
        (toHoursD ⟨2024, 1, 9, 0⟩) = .ok (Option.some "2024-01-09T14")
    ∧ freshTest (toHoursD ⟨2024, 1, 9, 0⟩) "2024-01-10T04" = true
    ∧ (specExpand ⟨"2024-01-10T00", 1, 5⟩).contains "2024-01-10T04" = true
    ∧ toHoursD ⟨2024, 1, 9, 14⟩ < toHoursD ⟨2024, 1, 10, 4⟩ := by
  refine ⟨?_, rfl, rfl, rfl, by decide⟩
  intro dates cutoff h
  exact goSelect_eq_find cutoff dates.reverse
    (fun d hd => h d (List.mem_reverse.mp hd))

/-- Witness for `freshness_reverse_scan`: the scan characterization applied
to the two-run catalog of the claim. -/
theorem freshness_reverse_scan_witness :
    (∀ d ∈ ([⟨"2024-01-10T00", 1, 5⟩, ⟨"2024-01-09T12", 1, 3⟩] : List RunDescriptor),
      (parseTs d.startingDate).isSome)
    ∧ selectDate [⟨"2024-01-10T00", 1, 5⟩, ⟨"2024-01-09T12", 1, 3⟩]
        (toHoursD ⟨2024, 1, 9, 0⟩) =
      .ok ((([⟨"2024-01-10T00", 1, 5⟩, ⟨"2024-01-09T12", 1, 3⟩] :
          List RunDescriptor).reverse.flatMap
        (fun d => (specExpand d).reverse)).find?
          (freshTest (toHoursD ⟨2024, 1, 9, 0⟩))) :=
  ⟨by decide, freshness_reverse_scan.1
    [⟨"2024-01-10T00", 1, 5⟩, ⟨"2024-01-09T12", 1, 3⟩]
    (toHoursD ⟨2024, 1, 9, 0⟩) (by decide)⟩

theorem selectDate_none_of_stale (runs : List RunDescriptor) (cutoff : Int)
    (hparse : ∀ d ∈ runs, (parseTs d.startingDate).isSome)
    (hstale : ∀ d ∈ runs, ∀ t ∈ specExpand d, freshTest cutoff t = false) :
    selectDate runs cutoff = .ok Option.none := by
  have hfind := goSelect_eq_find cutoff runs.reverse
    (fun d hd => hparse d (List.mem_reverse.mp hd))
  rw [selectDate, hfind]
  congr 1
  apply List.find?_eq_none.mpr
  intro t ht
  rcases List.mem_flatMap.mp ht with ⟨d, hd, htd⟩
  exact Bool.not_eq_true _ ▸
    (hstale d (List.mem_reverse.mp hd) t (List.mem_reverse.mp htd)) ▸ by simp

/-- C2: with the cutoff `floor_to_hour(now) - 24h`, a field whose catalog
(possibly empty) expands to no timestamp `>= cutoff` fails freshness
resolution with the "No valid forecast date" `ValueError`, independently of
the forecast endpoint (so no fetch is issued), and the per-field loop
leaves the result untouched and emits exactly one warning carrying the
field name and the level. -/
theorem stale_catalog_skipped (env : Env) (x y : Int) (fname : String)
    (lvl : Int) (runs : List RunDescriptor)
    (hdates : env.datesOf x y fname lvl = .ok runs)
    (hparse : ∀ d ∈ runs, (parseTs d.startingDate).isSome)
    (hstale : ∀ d ∈ runs, ∀ t ∈ specExpand d,
      freshTest (env.nowSec.fdiv 3600 - 24) t = false) :
    fieldOutcome env x y (fname, lvl) = .error (.valueError
      ("No valid forecast date found for field " ++ fname ++ " at level "
        ++ toString lvl))
    ∧ (∀ fo, fieldOutcome ⟨env.resolver, env.datesOf, fo, env.nowSec⟩ x y
        (fname, lvl) = .error (.valueError
          ("No valid forecast date found for field " ++ fname ++ " at level "
            ++ toString lvl)))
    ∧ (∀ r : ForecastResult, loopFields env x y [(fname, lvl)] r =
        (r, [⟨fname, lvl, .valueError
          ("No valid forecast date found for field " ++ fname ++ " at level "
            ++ toString lvl)⟩])) := by
  have hsel : selectDate runs (cutoffOf env.nowSec) = .ok Option.none :=
    selectDate_none_of_stale runs _ hparse (by simpa [cutoffOf] using hstale)
  have hout : fieldOutcome env x y (fname, lvl) = .error (.valueError
      ("No valid forecast date found for field " ++ fname ++ " at level "
        ++ toString lvl)) := by
    simp [fieldOutcome, hdates, hsel]
  refine ⟨hout, ?_, ?_⟩
  · intro fo
    simp [fieldOutcome, hdates] at hsel ⊢
    simp [hsel]
  · intro r
    simp [loopFields, hout]

/-- Witness for `stale_catalog_skipped`: a one-run catalog from 2020
against a clock in 2024. -/
theorem stale_catalog_skipped_witness :
    (Env.datesOf ⟨fun _ _ _ _ => .ok [], fun _ _ _ _ => .ok [⟨"2020-01-01T00", 1, 2⟩],
        fun _ _ _ _ _ => .ok ([], []), (toHoursD ⟨2024, 1, 9, 0⟩ + 24) * 3600⟩
      1 2 "T2" 0 = .ok [⟨"2020-01-01T00", 1, 2⟩])
    ∧ fieldOutcome ⟨fun _ _ _ _ => .ok [], fun _ _ _ _ => .ok [⟨"2020-01-01T00", 1, 2⟩],
        fun _ _ _ _ _ => .ok ([], []), (toHoursD ⟨2024, 1, 9, 0⟩ + 24) * 3600⟩
      1 2 ("T2", 0) = .error (.valueError
        ("No valid forecast date found for field " ++ "T2" ++ " at level "
          ++ toString (0 : Int))) :=
  ⟨rfl, (stale_catalog_skipped
      ⟨fun _ _ _ _ => .ok [], fun _ _ _ _ => .ok [⟨"2020-01-01T00", 1, 2⟩],
        fun _ _ _ _ _ => .ok ([], []), (toHoursD ⟨2024, 1, 9, 0⟩ + 24) * 3600⟩
      1 2 "T2" 0 [⟨"2020-01-01T00", 1, 2⟩] rfl (by decide) (by decide)).1⟩

/-- C3: an exception while processing one field is caught and recorded as
one warning while the accumulated result passes through unchanged; when
every field fails the loop returns the untouched result with one warning
per field; and `get_forecast` returns the loop output normally (as `.ok`),
so an all-fields-failed call returns the empty mapping rather than an
error. -/
theorem per_field_isolation :
    (∀ (env : Env) (x y : Int) (f : String × Int) (fs : List (String × Int))
        (r : ForecastResult) (e : MErr),
      fieldOutcome env x y f = .error e →
      loopFields env x y (f :: fs) r =
        ((loopFields env x y fs r).1, ⟨f.1, f.2, e⟩ :: (loopFields env x y fs r).2))
    ∧ (∀ (env : Env) (x y : Int) (fields : List (String × Int)) (r : ForecastResult),
      (∀ f ∈ fields, ∃ e, fieldOutcome env x y f = .error e) →
      (loopFields env x y fields r).1 = r
      ∧ (loopFields env x y fields r).2.length = fields.length)
    ∧ (∀ (env : Env) (s : MState) (x y : Int),
      check_config s.config = .ok () → s.x = Option.some x → s.y = Option.some y →
      get_forecast env s Option.none Option.none Option.none =
        .ok ((loopFields env x y (cfgFields s.config) []).1,
          (loopFields env x y (cfgFields s.config) []).2, s)) := by
  refine ⟨?_, ?_, ?_⟩
  · intro env x y f fs r e he
    simp [loopFields, he]
  · intro env x y fields
    induction fields with
    | nil => intro r _; simp [loopFields]
    | cons f fs ih =>
      intro r hall
      rcases hall f (List.mem_cons_self f fs) with ⟨e, he⟩
      have hrest := ih r (fun g hg => hall g (List.mem_cons_of_mem f hg))
      simp [loopFields, he, hrest.1, hrest.2]
  · intro env s x y hcfg hx hy
    simp [get_forecast, resolveXY, finishForecast, hcfg, hx, hy]

/-- Witness for `per_field_isolation`: a transport failure on every
catalog fetch leaves an empty result and two warnings for two fields. -/
theorem per_field_isolation_witness :
    (∀ f ∈ ([("T2", 0), ("PSFC", 0)] : List (String × Int)),
      ∃ e, fieldOutcome ⟨fun _ _ _ _ => .ok [],
        fun _ _ _ _ => .error (.valueError "Failed to connect to Meteo API: 500 - boom"),
        fun _ _ _ _ _ => .ok ([], []), 0⟩ 1 2 f = .error e)
    ∧ (loopFields ⟨fun _ _ _ _ => .ok [],
        fun _ _ _ _ => .error (.valueError "Failed to connect to Meteo API: 500 - boom"),
        fun _ _ _ _ _ => .ok ([], []), 0⟩ 1 2 [("T2", 0), ("PSFC", 0)] []).1 = []
    ∧ (loopFields ⟨fun _ _ _ _ => .ok [],
        fun _ _ _ _ => .error (.valueError "Failed to connect to Meteo API: 500 - boom"),
        fun _ _ _ _ _ => .ok ([], []), 0⟩ 1 2
        [("T2", 0), ("PSFC", 0)] []).2.length = [("T2", 0), ("PSFC", 0)].length :=
  ⟨fun _ _ => ⟨.valueError "Failed to connect to Meteo API: 500 - boom", rfl⟩,
    per_field_isolation.2.1 ⟨fun _ _ _ _ => .ok [],
        fun _ _ _ _ => .error (.valueError "Failed to connect to Meteo API: 500 - boom"),
        fun _ _ _ _ _ => .ok ([], []), 0⟩ 1 2 [("T2", 0), ("PSFC", 0)] []
      (fun _ _ => ⟨.valueError "Failed to connect to Meteo API: 500 - boom", rfl⟩)⟩

/-- C4 counterexample: a config whose `model` is the empty string passes
`_check_config` — only `isinstance` is checked, not non-emptiness — so the
claim that such a config is rejected is false. -/
theorem check_config_accepts_empty_model :
    check_config [("model", .str ""), ("grid", .str "d02_XLONG_XLAT"),
      ("fields", .list [.tuple [.str "T2", .int 0]])] = .ok () := rfl

/-- C4 (amended): validation succeeds iff `model` and `grid` are present
and strings (possibly empty), and `fields` is present, a list, non-empty,
with every element a (str, int) 2-tuple; a validation failure makes
`get_forecast` fail with that error for every environment, i.e., before
any network activity. -/
theorem config_validation_iff (c : PyConfig) :
    (check_config c = .ok () ↔ wellFormedConfig c)
    ∧ (∀ e, check_config c = .error e →
      ∀ (env : Env) (s : MState) (la lo : Option Coord),
        get_forecast env s la lo (Option.some c) = .error e) := by
  constructor
  · constructor
    · intro h
      unfold check_config checkKey at h
      cases hm : c.lookup "model" <;> rw [hm] at h
      case none => simp at h
      case some vm =>
        cases vm <;> simp [isStrV] at h
        case str sm =>
        cases hg : c.lookup "grid" <;> rw [hg] at h
        case none => simp at h
        case some vg =>
          cases vg <;> simp [isStrV] at h
          case str sg =>
          cases hf : c.lookup "fields" <;> rw [hf] at h
          case none => simp at h
          case some vf =>
            cases vf <;> simp [isListV] at h
            case list xs =>
            by_cases hlen : xs.length = 0
            · simp [hlen] at h
            · rw [if_neg (by simpa using hlen)] at h
              refine ⟨⟨sm, hm⟩, ⟨sg, hg⟩, xs, hf, ?_, (checkFields_ok_iff xs).mp h⟩
              intro hnil
              exact hlen (by simp [hnil])
    · rintro ⟨⟨sm, hm⟩, ⟨sg, hg⟩, xs, hf, hne, hok⟩
      unfold check_config checkKey
      rw [hm, hg, hf]
      simp [isStrV, isListV, List.length_eq_zero.not.mpr hne,
        (checkFields_ok_iff xs).mpr hok]
  · intro e he env s la lo
    simp [get_forecast, he]

/-- Witness for `config_validation_iff`: a config missing `fields` is
rejected with the same error for an arbitrary concrete environment. -/
theorem config_validation_iff_witness :
    check_config [("model", .str "wrf"), ("grid", .str "g")] =
      .error (.valueError "Configuration must have \"fields\" key")
    ∧ get_forecast ⟨fun _ _ _ _ => .ok [], fun _ _ _ _ => .ok [],
        fun _ _ _ _ _ => .ok ([], []), 0⟩
      ⟨"k", Option.none, Option.none, default_config, Option.none, Option.none⟩
      Option.none Option.none
      (Option.some [("model", .str "wrf"), ("grid", .str "g")]) =
      .error (.valueError "Configuration must have \"fields\" key") :=
  ⟨rfl, (config_validation_iff [("model", .str "wrf"), ("grid", .str "g")]).2
    (.valueError "Configuration must have \"fields\" key") rfl
    ⟨fun _ _ _ _ => .ok [], fun _ _ _ _ => .ok [],
      fun _ _ _ _ _ => .ok ([], []), 0⟩
    ⟨"k", Option.none, Option.none, default_config, Option.none, Option.none⟩
    Option.none Option.none⟩

/-- C5: the `times` and `data` of a fetched response are paired positionally by
`zip` — the pairing truncates to the shorter array — and each pair is
written at `[time][field][level]`, overwriting any prior value at that
exact triple, so the last write to a triple wins. -/
theorem zip_merge_semantics :
    (∀ (env : Env) (x y : Int) (f : String × Int) (dates : List RunDescriptor)
        (d : String) (times : List String) (data : List Value),
      env.datesOf x y f.1 f.2 = .ok dates →
      selectDate dates (cutoffOf env.nowSec) = .ok (Option.some d) →
      env.forecastOf x y f.1 f.2 d = .ok (times, data) →
      fieldOutcome env x y f = .ok (times.zip data)
      ∧ (times.zip data).length = Nat.min times.length data.length
      ∧ ∀ (i : Nat) (h1 : i < times.length) (h2 : i < data.length),
        (times.zip data).get ⟨i, by rw [List.length_zip]; exact lt_min h1 h2⟩
          = (times.get ⟨i, h1⟩, data.get ⟨i, h2⟩))
    ∧ (∀ (r : ForecastResult) (t fn : String) (l : Int) (v1 v2 : Value),
      getAt (setAt (setAt r t fn l v1) t fn l v2) t fn l = Option.some v2)
    ∧ (∀ (r : ForecastResult) (fn : String) (l : Int)
        (ps : List (String × Value)) (t : String) (v : Value),
      getAt (mergeField r fn l (ps ++ [(t, v)])) t fn l = Option.some v) := by
  refine ⟨?_, ?_, ?_⟩
  · intro env x y f dates d times data hdates hsel hfc
    refine ⟨by simp [fieldOutcome, hdates, hsel, hfc], ?_, ?_⟩
    · simp [List.length_zip, Nat.min_def, min_def]
    · intro i h1 h2
      simp [List.get_eq_getElem, List.getElem_zip]
  · intro r t fn l v1 v2
    exact getAt_setAt _ t fn l v2
  · intro r fn l ps t v
    have : mergeField r fn l (ps ++ [(t, v)]) =
        setAt (mergeField r fn l ps) t fn l v := by
      simp [mergeField, List.foldl_append]
    rw [this]
    exact getAt_setAt _ t fn l v

/-- Witness for `zip_merge_semantics`: three times against two values
truncate to two pairs. -/
theorem zip_merge_semantics_witness :
    Env.forecastOf ⟨fun _ _ _ _ => .ok [],
        fun _ _ _ _ => .ok [⟨"2024-01-09T12", 1, 3⟩],
        fun _ _ _ _ _ => .ok (["2024-01-09T12", "2024-01-09T13", "2024-01-09T14"], [7, 8]),
        (toHoursD ⟨2024, 1, 9, 0⟩ + 24) * 3600⟩ 1 2 "T2" 0 "2024-01-09T14" =
      .ok (["2024-01-09T12", "2024-01-09T13", "2024-01-09T14"], [7, 8])
    ∧ fieldOutcome ⟨fun _ _ _ _ => .ok [],
        fun _ _ _ _ => .ok [⟨"2024-01-09T12", 1, 3⟩],
        fun _ _ _ _ _ => .ok (["2024-01-09T12", "2024-01-09T13", "2024-01-09T14"], [7, 8]),
        (toHoursD ⟨2024, 1, 9, 0⟩ + 24) * 3600⟩ 1 2 ("T2", 0) =
      .ok (["2024-01-09T12", "2024-01-09T13", "2024-01-09T14"].zip ([7, 8] : List Value)) :=
  ⟨rfl, ((zip_merge_semantics.1 ⟨fun _ _ _ _ => .ok [],
      fun _ _ _ _ => .ok [⟨"2024-01-09T12", 1, 3⟩],
      fun _ _ _ _ _ => .ok (["2024-01-09T12", "2024-01-09T13", "2024-01-09T14"], [7, 8]),
      (toHoursD ⟨2024, 1, 9, 0⟩ + 24) * 3600⟩ 1 2 ("T2", 0)
      [⟨"2024-01-09T12", 1, 3⟩] "2024-01-09T14"
      ["2024-01-09T12", "2024-01-09T13", "2024-01-09T14"] [7, 8]
      rfl (by rfl) rfl)).1⟩

theorem finishForecast_ok_xy (env : Env) (s : MState) (c : PyConfig)
    (ox oy : Option Int) (out : ForecastResult × List Warning × MState)
    (h : finishForecast env s c ox oy = .ok out) :
    ∃ x y, ox = Option.some x ∧ oy = Option.some y
      ∧ out = ((loopFields env x y (cfgFields c) []).1,
        (loopFields env x y (cfgFields c) []).2, s) := by
  cases ox with
  | none => cases oy <;> exact Except.noConfusion h
  | some x =>
    cases oy with
    | none => exact Except.noConfusion h
    | some y => exact ⟨x, y, rfl, rfl, (Except.ok.inj h).symm⟩

theorem get_forecast_ok_elim (env : Env) (s : MState) (la lo : Option Coord)
    (cfg : Option PyConfig) (out : ForecastResult × List Warning × MState)
    (h : get_forecast env s la lo cfg = .ok out) :
    ∃ u xy, check_config (cfg.getD s.config) = .ok u
      ∧ resolveXY env s (cfg.getD s.config) la lo = .ok xy
      ∧ finishForecast env s (cfg.getD s.config) xy.1 xy.2 = .ok out := by
  unfold get_forecast at h
  cases hc : check_config (cfg.getD s.config) <;> rw [hc] at h
  case error e => exact Except.noConfusion h
  case ok u =>
    cases hres : resolveXY env s (cfg.getD s.config) la lo <;> rw [hres] at h
    case error e => exact Except.noConfusion h
    case ok xy => exact ⟨u, xy, rfl, rfl, h⟩

theorem get_forecast_ok_state (env : Env) (s : MState) (la lo : Option Coord)
    (cfg : Option PyConfig) (out : ForecastResult × List Warning × MState)
    (h : get_forecast env s la lo cfg = .ok out) : out.2.2 = s := by
  rcases get_forecast_ok_elim env s la lo cfg out h with ⟨u, xy, hc, hres, hfin⟩
  rcases finishForecast_ok_xy _ _ _ _ _ _ hfin with ⟨x1, y1, hox, hoy, hout⟩
  rw [hout]

/-- C8: forecast retrieval is deterministic and stateless across repeated
calls — a successful call leaves the instance state unchanged, and an
immediate second call with the same arguments returns the identical
output. -/
theorem idempotent_repeat (env : Env) (s : MState) (la lo : Option Coord)
    (cfg : Option PyConfig) (out : ForecastResult × List Warning × MState)
    (h : get_forecast env s la lo cfg = .ok out) :
    out.2.2 = s ∧ get_forecast env out.2.2 la lo cfg = .ok out := by
  have hs : out.2.2 = s := get_forecast_ok_state env s la lo cfg out h
  exact ⟨hs, hs ▸ h⟩

/-- C9: with a per-call latitude/longitude override, `get_forecast`
resolves a grid cell used only for that call — the output is the same
whatever the cached `x`, `y` hold — and the instance state (coordinates
and cached cell included) comes back unmodified, with or without an
override. -/
theorem override_fresh_cell (env : Env) (s : MState) (la lo : Coord)
    (cfg : Option PyConfig) (out : ForecastResult × List Warning × MState)
    (h : get_forecast env s (Option.some la) (Option.some lo) cfg = .ok out) :
    out.2.2 = s
    ∧ (∀ x0 y0 : Option Int,
      get_forecast env ⟨s.apiKey, s.lat, s.lon, s.config, x0, y0⟩
        (Option.some la) (Option.some lo) cfg =
        .ok (out.1, out.2.1, ⟨s.apiKey, s.lat, s.lon, s.config, x0, y0⟩))
    ∧ (∀ (la2 lo2 : Option Coord) (cfg2 : Option PyConfig)
        (out2 : ForecastResult × List Warning × MState),
      get_forecast env s la2 lo2 cfg2 = .ok out2 → out2.2.2 = s) := by
  refine ⟨get_forecast_ok_state env s _ _ cfg out h, ?_,
    fun la2 lo2 cfg2 out2 h2 => get_forecast_ok_state env s la2 lo2 cfg2 out2 h2⟩
  intro x0 y0
  rcases get_forecast_ok_elim env s _ _ cfg out h with ⟨u, xy, hc, hres, hfin⟩
  rcases finishForecast_ok_xy _ _ _ _ _ _ hfin with ⟨x1, y1, hox, hoy, hout⟩
  have hxy : xy = (Option.some x1, Option.some y1) := by
    rcases xy with ⟨a, b⟩
    simp only [Prod.mk.injEq]
    exact ⟨hox, hoy⟩
  rw [hxy] at hres
  have hres2 : resolveXY env ⟨s.apiKey, s.lat, s.lon, s.config, x0, y0⟩
      (cfg.getD s.config) (Option.some la) (Option.some lo) =
      .ok (Option.some x1, Option.some y1) := hres
  subst hout
  simp [get_forecast, hc, hres2, finishForecast]

/-- Concrete environment for the state-frame witnesses: stale empty
catalog, a resolver answering grid cell (3, 4). -/
def envW : Env :=
  ⟨fun _ _ _ _ => .ok [⟨3, 4⟩], fun _ _ _ _ => .ok [],
    fun _ _ _ _ _ => .ok ([], []), 0⟩

/-- Concrete instance state for the state-frame witnesses. -/
def stW : MState :=
  ⟨"k", Option.none, Option.none,
    [("model", .str "wrf"), ("grid", .str "g"),
      ("fields", .list [.tuple [.str "T2", .int 0]])],
    Option.some 1, Option.some 2⟩

/-- The output `get_forecast` produces on `envW`/`stW`: empty result, one
stale-catalog warning, unchanged state. -/
def outW : ForecastResult × List Warning × MState :=
  ([], [⟨"T2", 0, .valueError
    "No valid forecast date found for field T2 at level 0"⟩], stW)

/-- Witness for `idempotent_repeat`: a concrete one-field environment in
which the call succeeds (with one stale-catalog warning). -/
theorem idempotent_repeat_witness :
    get_forecast envW stW Option.none Option.none Option.none = .ok outW
    ∧ (outW.2.2 = stW
      ∧ get_forecast envW outW.2.2 Option.none Option.none Option.none = .ok outW) :=
  ⟨rfl, idempotent_repeat envW stW Option.none Option.none Option.none outW rfl⟩

/-- Witness for `override_fresh_cell`: a successful call with per-call
overrides (52, 21) on a resolver answering cell (3, 4). -/
theorem override_fresh_cell_witness :
    get_forecast envW stW (Option.some 52) (Option.some 21) Option.none = .ok outW
    ∧ (outW.2.2 = stW
      ∧ (∀ x0 y0 : Option Int,
        get_forecast envW ⟨stW.apiKey, stW.lat, stW.lon, stW.config, x0, y0⟩
          (Option.some 52) (Option.some 21) Option.none =
          .ok (outW.1, outW.2.1, ⟨stW.apiKey, stW.lat, stW.lon, stW.config, x0, y0⟩))
      ∧ (∀ (la2 lo2 : Option Coord) (cfg2 : Option PyConfig)
          (out2 : ForecastResult × List Warning × MState),
        get_forecast envW stW la2 lo2 cfg2 = .ok out2 → out2.2.2 = stW)) :=
  ⟨rfl, override_fresh_cell envW stW 52 21 Option.none outW rfl⟩

/-- C10: a constructor call with exactly one of latitude and longitude
stores neither, never consults the coordinate resolver, succeeds, and
leaves the grid cell unset; a later `get_forecast` on that instance
without a full per-call override fails with the coordinates-must-be-set
`ValueError`. -/
theorem half_coordinates (resolver : Resolver) (apiKey : String) (la : Coord)
    (cfgArg : Option PyConfig)
    (hcfg : check_config (cfgArg.getD default_config) = .ok ()) :
    mkMeteoForecast resolver apiKey (Option.some la) Option.none cfgArg =
      .ok ⟨apiKey, Option.none, Option.none, cfgArg.getD default_config,
        Option.none, Option.none⟩
    ∧ mkMeteoForecast resolver apiKey Option.none (Option.some la) cfgArg =
      .ok ⟨apiKey, Option.none, Option.none, cfgArg.getD default_config,
        Option.none, Option.none⟩
    ∧ (∀ resolver2 : Resolver,
      mkMeteoForecast resolver2 apiKey (Option.some la) Option.none cfgArg =
        mkMeteoForecast resolver apiKey (Option.some la) Option.none cfgArg
      ∧ mkMeteoForecast resolver2 apiKey Option.none (Option.some la) cfgArg =
        mkMeteoForecast resolver apiKey Option.none (Option.some la) cfgArg)
    ∧ (∀ (env : Env) (la2 lo2 : Option Coord),
      la2 = Option.none ∨ lo2 = Option.none →
      get_forecast env ⟨apiKey, Option.none, Option.none,
          cfgArg.getD default_config, Option.none, Option.none⟩ la2 lo2
        Option.none =
        .error (.valueError ("Coordinates must be set before fetching the forecast. "
          ++ "Set latitude and longitude in constructor or in get_forecast call."))) := by
  refine ⟨by simp [mkMeteoForecast, hcfg], by simp [mkMeteoForecast, hcfg],
    fun resolver2 => ⟨by simp [mkMeteoForecast, hcfg], by simp [mkMeteoForecast, hcfg]⟩,
    ?_⟩
  intro env la2 lo2 hone
  have hres : resolveXY env ⟨apiKey, Option.none, Option.none,
      cfgArg.getD default_config, Option.none, Option.none⟩
      (cfgArg.getD default_config) la2 lo2 = .ok (Option.none, Option.none) := by
    rcases hone with h2 | h2 <;> subst h2
    · cases lo2 <;> rfl
    · cases la2 <;> rfl
  have hcfg2 : check_config (Option.getD Option.none
      (MState.config ⟨apiKey, Option.none, Option.none,
        cfgArg.getD default_config, Option.none, Option.none⟩)) = .ok () := hcfg
  simp [get_forecast, hcfg, hcfg2, hres, finishForecast]

/-- Witness for `half_coordinates`: default config, latitude 52 only. -/
theorem half_coordinates_witness :
    check_config ((Option.none : Option PyConfig).getD default_config) = .ok ()
    ∧ mkMeteoForecast (fun _ _ _ _ => .ok [⟨3, 4⟩]) "k" (Option.some 52)
        Option.none Option.none =
      .ok ⟨"k", Option.none, Option.none,
        (Option.none : Option PyConfig).getD default_config,
        Option.none, Option.none⟩ :=
  ⟨rfl, (half_coordinates (fun _ _ _ _ => .ok [⟨3, 4⟩]) "k" 52 Option.none rfl).1⟩

end MeteoForecast
